import Mathlib

/-!
Shallow embedding of `src/server.py` (google-workspace-mcp): an MCP server
exposing Google Workspace Admin Directory operations as tools.

Modelling conventions:
* Python exceptions are the inductive `PyError`; for `HttpError` the JSON body
  parse of `e.content` is modelled by an oracle field `parsedMsg : Option String`
  (`some m` when `json.loads` succeeds and an `error.message` key exists,
  `none` otherwise, in which case the code falls back to `str(e)` = `strRep`).
* The module-level environment variables become the record `Config`.
* Every remote interaction (credential loading plus each Directory API call)
  is an oracle stored in `Env`; a handler returns the string it would produce
  together with the ordered list of Directory API calls it issued
  (`List ApiCall`, issuance order; a call that raises is still in the list,
  since `.execute()` raises only after the request was made).
* `secrets.choice` is modelled by the oracle `Env.randPick`.
* Python truthiness on optional strings (`if not x:`) treats both `None` and
  `""` as absent; `truthyStr` normalises accordingly.
-/

/-- Python exceptions that reach `handle_google_error`. -/
inductive PyError where
  | httpError (status : Nat) (parsedMsg : Option String) (strRep : String)
  | fileNotFound (strRep : String)
  | valueError (msg : String)
  | other (typeName : String) (msg : String)
deriving DecidableEq, Repr

/-- The module-level configuration read from the environment
(`SERVICE_ACCOUNT_FILE`, `ADMIN_EMAIL`, `CUSTOMER_ID`). -/
structure Config where
  serviceAccountFile : String
  adminEmail : String
  customerId : String
deriving DecidableEq, Repr

/-- A Directory API user resource as consumed by `format_user` and the
handlers: each field mirrors a dictionary key read by the code
(`None`/absent is `none`; `suspended` and `isAdmin` are read only for
truthiness, so they are booleans with absent = `false`). -/
structure UserRec where
  primaryEmail : Option String := none
  fullName : Option String := none
  id : Option String := none
  suspended : Bool := false
  isAdmin : Bool := false
  lastLoginTime : Option String := none
  creationTime : Option String := none
  aliases : List String := []
  orgUnitPath : Option String := none
deriving DecidableEq, Repr

/-- A user-alias resource (`a.get('alias', 'N/A')`). -/
structure AliasRec where
  aliasEmail : Option String := none
deriving DecidableEq, Repr

/-- A group resource as read by `gw_list_groups`. -/
structure GroupRec where
  email : Option String := none
  name : Option String := none
  directMembersCount : Option String := none
deriving DecidableEq, Repr

/-- A group-member resource as read by `gw_manage_group_member`. -/
structure MemberRec where
  email : Option String := none
  role : Option String := none
  status : Option String := none
deriving DecidableEq, Repr

/-- An organizational-unit resource as read by `gw_list_org_units`. -/
structure OrgUnitRec where
  orgUnitPath : Option String := none
  name : Option String := none
  orgUnitId : Option String := none
deriving DecidableEq, Repr

/-- `chars = string.ascii_letters + string.digits + "!@#$%&*"` from
`generate_temp_password`. -/
def passwordChars : List Char :=
  "abcdefghijklmnopqrstuvwxyzABCDEFGHIJKLMNOPQRSTUVWXYZ0123456789!@#$%&*".data

/-- One Directory API call, with the arguments the code passes. -/
inductive ApiCall where
  | usersList (customer : String) (maxResults : Nat) (orderBy : String)
      (query : Option String)
  | usersGet (userKey : String)
  | usersInsert (primaryEmail givenName familyName password : String)
      (changePasswordAtNextLogin : Bool) (orgUnitPath : String)
      (recoveryEmail recoveryPhone : Option String)
  | usersDelete (userKey : String)
  | usersUpdateSuspended (userKey : String) (suspended : Bool)
  | usersUpdatePassword (userKey : String) (password : String)
      (changePasswordAtNextLogin : Bool)
  | usersUpdateOrgUnit (userKey : String) (orgUnitPath : String)
  | aliasesList (userKey : String)
  | aliasesInsert (userKey : String) (aliasEmail : String)
  | aliasesDelete (userKey : String) (aliasEmail : String)
  | groupsList (customer : Option String) (userKey : Option String)
      (maxResults : Nat)
  | membersList (groupKey : String)
  | membersInsert (groupKey : String) (email : String) (role : String)
  | membersDelete (groupKey : String) (memberKey : String)
  | orgunitsList (customerId : String)
deriving DecidableEq, Repr

/-- Oracle for everything outside this process: the outcome of loading the
service-account credentials and building the client, the outcome of each
Directory API call, and the secure random source. -/
structure Env where
  credLoad : Except PyError Unit
  usersListR : Except PyError (List UserRec)
  usersGetR : Except PyError UserRec
  usersInsertR : Except PyError UserRec
  usersDeleteR : Except PyError Unit
  usersUpdateR : Except PyError UserRec
  aliasesListR : Except PyError (List AliasRec)
  aliasesInsertR : Except PyError Unit
  aliasesDeleteR : Except PyError Unit
  groupsListR : Except PyError (List GroupRec)
  membersListR : Except PyError (List MemberRec)
  membersInsertR : Except PyError Unit
  membersDeleteR : Except PyError Unit
  orgunitsListR : Except PyError (List OrgUnitRec)
  randPick : Nat → Fin passwordChars.length

/-- Python truthiness for an optional string: `None` and `""` are falsy. -/
def truthyStr : Option String → Option String
  | some s => if s = "" then none else some s
  | none => none

/-- Message of the `ValueError` raised by `get_directory_service` when
`ADMIN_EMAIL` is unset. -/
def adminEmailUnsetMsg : String :=
  "GOOGLE_ADMIN_EMAIL non configurato. Impostalo con l'email dell'admin che ha la delega domain-wide."

/-- `get_directory_service`: raises `ValueError` when `ADMIN_EMAIL` is empty,
otherwise loads the credential file and builds the client (oracle
`env.credLoad`). -/
def get_directory_service (cfg : Config) (env : Env) : Except PyError Unit :=
  if cfg.adminEmail = "" then Except.error (PyError.valueError adminEmailUnsetMsg)
  else env.credLoad

/-- The `error_map` lookup with default, from `handle_google_error`. -/
def translateHttp (status : Nat) (message : String) : String :=
  if status = 400 then "Richiesta non valida: " ++ message
  else if status = 403 then
    "Permessi insufficienti: " ++ message ++ ". Verifica la delega domain-wide del Service Account."
  else if status = 404 then "Risorsa non trovata: " ++ message
  else if status = 409 then
    "Conflitto: " ++ message ++ " (l'utente/gruppo potrebbe già esistere)"
  else if status = 429 then "Rate limit superato. Riprova tra qualche secondo."
  else "Errore API Google (HTTP " ++ toString status ++ "): " ++ message

/-- `handle_google_error`: formats Google API errors as readable messages. -/
def handle_google_error (cfg : Config) (e : PyError) : String :=
  match e with
  | PyError.httpError status parsedMsg strRep =>
      translateHttp status (parsedMsg.getD strRep)
  | PyError.fileNotFound _ =>
      "File credenziali non trovato: " ++ cfg.serviceAccountFile ++ ". Verifica il path."
  | PyError.valueError msg => "Errore configurazione: " ++ msg
  | PyError.other typeName msg => "Errore imprevisto: " ++ typeName ++ ": " ++ msg

/-- `generate_temp_password`: `length` independent draws from
`passwordChars`, joined. -/
def generate_temp_password (pick : Nat → Fin passwordChars.length)
    (length : Nat := 16) : String :=
  String.mk ((List.range length).map (fun i => passwordChars.get (pick i)))

/-- `format_user`: renders a user resource as a fixed text block. -/
def format_user (user : UserRec) : String :=
  let lines : List String := [
    "📧 **" ++ user.primaryEmail.getD "N/A" ++ "**",
    "   Nome: " ++ user.fullName.getD "N/A",
    "   ID: " ++ user.id.getD "N/A",
    "   Stato: " ++ (if user.suspended then "🔴 Sospeso" else "🟢 Attivo"),
    "   Admin: " ++ (if user.isAdmin then "Sì" else "No"),
    "   Ultimo accesso: " ++ user.lastLoginTime.getD "Mai",
    "   Creazione: " ++ user.creationTime.getD "N/A"]
  let lines := if user.aliases ≠ [] then
    lines ++ ["   Alias: " ++ String.intercalate ", " user.aliases]
  else lines
  let org := user.orgUnitPath.getD "/"
  let lines := if org ≠ "" then lines ++ ["   Unità org.: " ++ org] else lines
  String.intercalate "\n" lines

/-- Input schema of `gw_list_users` (defaults from the pydantic model). -/
structure ListUsersInput where
  query : Option String := none
  max_results : Nat := 100
  order_by : String := "email"
  show_suspended : Bool := true
deriving DecidableEq, Repr

/-- Input schema of `gw_get_user`. -/
structure GetUserInput where
  user_key : String
deriving DecidableEq, Repr

/-- Input schema of `gw_create_user`. -/
structure CreateUserInput where
  primary_email : String
  first_name : String
  last_name : String
  password : Option String := none
  org_unit_path : String := "/"
  change_password_at_next_login : Bool := true
  recovery_email : Option String := none
  recovery_phone : Option String := none
deriving DecidableEq, Repr

/-- Input schema of `gw_delete_user`. -/
structure DeleteUserInput where
  user_key : String
  confirm : Bool
deriving DecidableEq, Repr

/-- Input schema of `gw_suspend_user`. -/
structure SuspendUserInput where
  user_key : String
  suspend : Bool
deriving DecidableEq, Repr

/-- Input schema of `gw_reset_password`. -/
structure ResetPasswordInput where
  user_key : String
  new_password : Option String := none
  force_change : Bool := true
deriving DecidableEq, Repr

/-- The `AliasAction` enum. -/
inductive AliasAction where
  | add
  | remove
  | list
deriving DecidableEq, Repr

/-- Input schema of `gw_manage_alias`. -/
structure ManageAliasInput where
  user_key : String
  action : AliasAction
  alias_email : Option String := none
deriving DecidableEq, Repr

/-- Input schema of `gw_list_groups`. -/
structure ListGroupsInput where
  user_key : Option String := none
  max_results : Nat := 100
deriving DecidableEq, Repr

/-- The `GroupMemberAction` enum. -/
inductive GroupMemberAction where
  | add
  | remove
  | list
deriving DecidableEq, Repr

/-- The `GroupMemberRole` enum. -/
inductive GroupMemberRole where
  | MEMBER
  | MANAGER
  | OWNER
deriving DecidableEq, Repr

/-- `role.value` of a `GroupMemberRole`. -/
def roleValue : GroupMemberRole → String
  | GroupMemberRole.MEMBER => "MEMBER"
  | GroupMemberRole.MANAGER => "MANAGER"
  | GroupMemberRole.OWNER => "OWNER"

/-- Input schema of `gw_manage_group_member`. -/
structure ManageGroupMemberInput where
  group_key : String
  action : GroupMemberAction
  member_email : Option String := none
  role : GroupMemberRole := GroupMemberRole.MEMBER
deriving DecidableEq, Repr

/-- Input schema of `gw_move_user_org`. -/
structure MoveUserOrgInput where
  user_key : String
  org_unit_path : String
deriving DecidableEq, Repr

/-- The client-side suspended filter of `gw_list_users`
(`if not params.show_suspended: users = [u for u in users if not u.get("suspended")]`). -/
def listUsersFiltered (show_suspended : Bool) (users : List UserRec) : List UserRec :=
  if !show_suspended then users.filter (fun u => !u.suspended) else users

/-- The output block `gw_list_users` builds from a non-empty user list. -/
def renderUserList (users : List UserRec) : String :=
  String.intercalate "\n" (("## Utenti trovati: " ++ toString users.length ++ "\n") ::
    users.flatMap (fun u => [format_user u, "---"]))

/-- The "no users found" message of `gw_list_users`. -/
def noUsersMsg : String := "Nessun utente trovato con i criteri specificati."

/-- `gw_list_users` tool handler. -/
def gw_list_users (cfg : Config) (env : Env) (params : ListUsersInput) :
    String × List ApiCall :=
  match get_directory_service cfg env with
  | Except.error e => (handle_google_error cfg e, [])
  | Except.ok _ =>
    let call := ApiCall.usersList cfg.customerId params.max_results params.order_by
      (truthyStr params.query)
    match env.usersListR with
    | Except.error e => (handle_google_error cfg e, [call])
    | Except.ok users0 =>
      let users := listUsersFiltered params.show_suspended users0
      if users = [] then (noUsersMsg, [call])
      else (renderUserList users, [call])

/-- `gw_get_user` tool handler. -/
def gw_get_user (cfg : Config) (env : Env) (params : GetUserInput) :
    String × List ApiCall :=
  match get_directory_service cfg env with
  | Except.error e => (handle_google_error cfg e, [])
  | Except.ok _ =>
    match env.usersGetR with
    | Except.error e => (handle_google_error cfg e, [ApiCall.usersGet params.user_key])
    | Except.ok user => (format_user user, [ApiCall.usersGet params.user_key])

/-- `password = params.password or generate_temp_password()` from
`gw_create_user` (`or` falls through on `None` and on `""`). -/
def createUserPassword (env : Env) (params : CreateUserInput) : String :=
  match truthyStr params.password with
  | some p => p
  | none => generate_temp_password env.randPick

/-- The force-change warning line of the `gw_create_user` confirmation. -/
def createWarnLine : String := "⚠️ L'utente dovrà cambiarla al primo accesso."

/-- `gw_create_user` tool handler. -/
def gw_create_user (cfg : Config) (env : Env) (params : CreateUserInput) :
    String × List ApiCall :=
  match get_directory_service cfg env with
  | Except.error e => (handle_google_error cfg e, [])
  | Except.ok _ =>
    let password := createUserPassword env params
    let call := ApiCall.usersInsert params.primary_email params.first_name
      params.last_name password params.change_password_at_next_login
      params.org_unit_path (truthyStr params.recovery_email)
      (truthyStr params.recovery_phone)
    match env.usersInsertR with
    | Except.error e => (handle_google_error cfg e, [call])
    | Except.ok created =>
      ("✅ Utente creato con successo!\n\n" ++ format_user created ++
        "\n\n🔑 **Password temporanea**: `" ++ password ++ "`\n" ++
        (if params.change_password_at_next_login then createWarnLine else "") ++
        "\n\nComunica le credenziali al cliente in modo sicuro.", [call])

/-- The cancellation notice of `gw_delete_user` when `confirm` is false. -/
def deleteCancelMsg : String :=
  "⛔ Eliminazione annullata. Per procedere, imposta confirm=True.\nRicorda: l'utente sarà nel cestino per 20 giorni prima dell'eliminazione definitiva."

/-- `gw_delete_user` tool handler: the `confirm` check precedes the
`try` block, so it precedes `get_directory_service`. -/
def gw_delete_user (cfg : Config) (env : Env) (params : DeleteUserInput) :
    String × List ApiCall :=
  if !params.confirm then (deleteCancelMsg, [])
  else
    match get_directory_service cfg env with
    | Except.error e => (handle_google_error cfg e, [])
    | Except.ok _ =>
      match env.usersGetR with
      | Except.error e => (handle_google_error cfg e, [ApiCall.usersGet params.user_key])
      | Except.ok user =>
        let user_email := user.primaryEmail.getD params.user_key
        let user_name := user.fullName.getD "N/A"
        match env.usersDeleteR with
        | Except.error e =>
            (handle_google_error cfg e,
              [ApiCall.usersGet params.user_key, ApiCall.usersDelete params.user_key])
        | Except.ok _ =>
            ("🗑️ Utente eliminato: **" ++ user_name ++ "** (" ++ user_email ++
              ")\n\nL'utente resterà nel cestino per 20 giorni e potrà essere ripristinato.\nDopo 20 giorni l'eliminazione sarà definitiva.",
              [ApiCall.usersGet params.user_key, ApiCall.usersDelete params.user_key])

/-- `gw_suspend_user` tool handler. -/
def gw_suspend_user (cfg : Config) (env : Env) (params : SuspendUserInput) :
    String × List ApiCall :=
  match get_directory_service cfg env with
  | Except.error e => (handle_google_error cfg e, [])
  | Except.ok _ =>
    let call := ApiCall.usersUpdateSuspended params.user_key params.suspend
    match env.usersUpdateR with
    | Except.error e => (handle_google_error cfg e, [call])
    | Except.ok updated =>
      let act := if params.suspend then "sospeso 🔴" else "riattivato 🟢"
      ("✅ Utente " ++ act ++ ": **" ++ updated.primaryEmail.getD "None" ++
        "**\n\n" ++ format_user updated, [call])

/-- `password = params.new_password or generate_temp_password()` from
`gw_reset_password`. -/
def resetUserPassword (env : Env) (params : ResetPasswordInput) : String :=
  match truthyStr params.new_password with
  | some p => p
  | none => generate_temp_password env.randPick

/-- The force-change warning line of the `gw_reset_password` confirmation. -/
def resetWarnLine : String := "⚠️ L'utente dovrà cambiarla al prossimo accesso."

/-- `gw_reset_password` tool handler. -/
def gw_reset_password (cfg : Config) (env : Env) (params : ResetPasswordInput) :
    String × List ApiCall :=
  match get_directory_service cfg env with
  | Except.error e => (handle_google_error cfg e, [])
  | Except.ok _ =>
    let password := resetUserPassword env params
    let call := ApiCall.usersUpdatePassword params.user_key password params.force_change
    match env.usersUpdateR with
    | Except.error e => (handle_google_error cfg e, [call])
    | Except.ok updated =>
      ("🔑 Password resettata per: **" ++ updated.primaryEmail.getD "None" ++
        "**\n\nNuova password: `" ++ password ++ "`\n" ++
        (if params.force_change then resetWarnLine else "") ++
        "\n\nComunica la nuova password in modo sicuro.", [call])

/-- The missing-`alias_email` validation warning of `gw_manage_alias`. -/
def aliasWarnMsg : String := "⚠️ Specifica alias_email per aggiungere o rimuovere un alias."

/-- `gw_manage_alias` tool handler. In the source the
`if not params.alias_email` guard sits once, before the add/remove dispatch
and after the list branch returned; here it is repeated in each of the two
branches it protects, which is the same control flow. -/
def gw_manage_alias (cfg : Config) (env : Env) (params : ManageAliasInput) :
    String × List ApiCall :=
  match get_directory_service cfg env with
  | Except.error e => (handle_google_error cfg e, [])
  | Except.ok _ =>
    match params.action with
    | AliasAction.list =>
      let call := ApiCall.aliasesList params.user_key
      match env.aliasesListR with
      | Except.error e => (handle_google_error cfg e, [call])
      | Except.ok aliases =>
        if aliases = [] then
          ("Nessun alias configurato per " ++ params.user_key ++ ".", [call])
        else
          (String.intercalate "\n" (("## Alias per " ++ params.user_key ++ "\n") ::
            aliases.map (fun a => "- " ++ a.aliasEmail.getD "N/A")), [call])
    | AliasAction.add =>
      match truthyStr params.alias_email with
      | none => (aliasWarnMsg, [])
      | some a =>
        let call := ApiCall.aliasesInsert params.user_key a
        match env.aliasesInsertR with
        | Except.error e => (handle_google_error cfg e, [call])
        | Except.ok _ =>
            ("✅ Alias **" ++ a ++ "** aggiunto a " ++ params.user_key, [call])
    | AliasAction.remove =>
      match truthyStr params.alias_email with
      | none => (aliasWarnMsg, [])
      | some a =>
        let call := ApiCall.aliasesDelete params.user_key a
        match env.aliasesDeleteR with
        | Except.error e => (handle_google_error cfg e, [call])
        | Except.ok _ =>
            ("🗑️ Alias **" ++ a ++ "** rimosso da " ++ params.user_key, [call])

/-- `gw_list_groups` tool handler. -/
def gw_list_groups (cfg : Config) (env : Env) (params : ListGroupsInput) :
    String × List ApiCall :=
  match get_directory_service cfg env with
  | Except.error e => (handle_google_error cfg e, [])
  | Except.ok _ =>
    let call := match truthyStr params.user_key with
      | some k => ApiCall.groupsList none (some k) params.max_results
      | none => ApiCall.groupsList (some cfg.customerId) none params.max_results
    match env.groupsListR with
    | Except.error e => (handle_google_error cfg e, [call])
    | Except.ok groups =>
      if groups = [] then ("Nessun gruppo trovato.", [call])
      else
        (String.intercalate "\n" (("## Gruppi trovati: " ++ toString groups.length ++ "\n") ::
          groups.map (fun g =>
            "- 👥 **" ++ g.email.getD "None" ++ "** — " ++ g.name.getD "N/A" ++
              " (" ++ g.directMembersCount.getD "?" ++ " membri)")), [call])

/-- The missing-`member_email` validation warning of `gw_manage_group_member`. -/
def memberWarnMsg : String := "⚠️ Specifica member_email per aggiungere o rimuovere un membro."

/-- `gw_manage_group_member` tool handler (same guard layout note as
`gw_manage_alias`). -/
def gw_manage_group_member (cfg : Config) (env : Env)
    (params : ManageGroupMemberInput) : String × List ApiCall :=
  match get_directory_service cfg env with
  | Except.error e => (handle_google_error cfg e, [])
  | Except.ok _ =>
    match params.action with
    | GroupMemberAction.list =>
      let call := ApiCall.membersList params.group_key
      match env.membersListR with
      | Except.error e => (handle_google_error cfg e, [call])
      | Except.ok members =>
        if members = [] then
          ("Il gruppo " ++ params.group_key ++ " non ha membri.", [call])
        else
          (String.intercalate "\n" (("## Membri di " ++ params.group_key ++ "\n") ::
            members.map (fun m =>
              "- " ++ m.email.getD "N/A" ++ " (" ++ m.role.getD "MEMBER" ++ ") " ++
                m.status.getD "")), [call])
    | GroupMemberAction.add =>
      match truthyStr params.member_email with
      | none => (memberWarnMsg, [])
      | some memail =>
        let call := ApiCall.membersInsert params.group_key memail (roleValue params.role)
        match env.membersInsertR with
        | Except.error e => (handle_google_error cfg e, [call])
        | Except.ok _ =>
            ("✅ **" ++ memail ++ "** aggiunto al gruppo **" ++ params.group_key ++
              "** come " ++ roleValue params.role, [call])
    | GroupMemberAction.remove =>
      match truthyStr params.member_email with
      | none => (memberWarnMsg, [])
      | some memail =>
        let call := ApiCall.membersDelete params.group_key memail
        match env.membersDeleteR with
        | Except.error e => (handle_google_error cfg e, [call])
        | Except.ok _ =>
            ("🗑️ **" ++ memail ++ "** rimosso dal gruppo **" ++ params.group_key ++ "**",
              [call])

/-- `gw_list_org_units` tool handler. -/
def gw_list_org_units (cfg : Config) (env : Env) : String × List ApiCall :=
  match get_directory_service cfg env with
  | Except.error e => (handle_google_error cfg e, [])
  | Except.ok _ =>
    let call := ApiCall.orgunitsList cfg.customerId
    match env.orgunitsListR with
    | Except.error e => (handle_google_error cfg e, [call])
    | Except.ok units =>
      if units = [] then
        ("Nessuna unità organizzativa personalizzata (solo root /).", [call])
      else
        (String.intercalate "\n" ("## Unità Organizzative\n" ::
          (units.mergeSort (fun a b =>
              decide (a.orgUnitPath.getD "" ≤ b.orgUnitPath.getD ""))).map
            (fun u => "- 📁 **" ++ u.orgUnitPath.getD "None" ++ "** — " ++
              u.name.getD "N/A" ++ " (ID: " ++ u.orgUnitId.getD "N/A" ++ ")")), [call])

/-- `gw_move_user_org` tool handler. -/
def gw_move_user_org (cfg : Config) (env : Env) (params : MoveUserOrgInput) :
    String × List ApiCall :=
  match get_directory_service cfg env with
  | Except.error e => (handle_google_error cfg e, [])
  | Except.ok _ =>
    let call := ApiCall.usersUpdateOrgUnit params.user_key params.org_unit_path
    match env.usersUpdateR with
    | Except.error e => (handle_google_error cfg e, [call])
    | Except.ok updated =>
      ("✅ **" ++ updated.primaryEmail.getD "None" ++ "** spostato in **" ++
        params.org_unit_path ++ "**", [call])

/-- Does `pat` occur at the head of `s`? (decidable substring machinery used
to state "the output contains ..."). -/
def charsStartWith : List Char → List Char → Bool
  | [], _ => true
  | _ :: _, [] => false
  | p :: ps, c :: cs => p = c && charsStartWith ps cs

/-- Does `pat` occur anywhere in `s`? -/
def charsHaveSub (pat : List Char) : List Char → Bool
  | [] => charsStartWith pat []
  | c :: cs => charsStartWith pat (c :: cs) || charsHaveSub pat cs

/-- `strHasSub s pat` decides whether `pat` occurs as a contiguous substring
of `s`. -/
def strHasSub (s pat : String) : Bool := charsHaveSub pat.data s.data

/-- A concrete configuration used by the concrete-scenario theorems. -/
def cfg0 : Config :=
  { serviceAccountFile := "/opt/app/credentials.json"
    adminEmail := "admin@x.com"
    customerId := "my_customer" }

/-- A concrete random oracle: always the first alphabet character. -/
def pick0 : Nat → Fin passwordChars.length := fun _ => ⟨0, by decide⟩

/-- A concrete benign environment: credentials load and every call succeeds
with an empty/default resource. -/
def env0 : Env where
  credLoad := Except.ok ()
  usersListR := Except.ok []
  usersGetR := Except.ok {}
  usersInsertR := Except.ok {}
  usersDeleteR := Except.ok ()
  usersUpdateR := Except.ok {}
  aliasesListR := Except.ok []
  aliasesInsertR := Except.ok ()
  aliasesDeleteR := Except.ok ()
  groupsListR := Except.ok []
  membersListR := Except.ok []
  membersInsertR := Except.ok ()
  membersDeleteR := Except.ok ()
  orgunitsListR := Except.ok []
  randPick := pick0

/-- The user record of the get-user scenario in the spec. -/
def userScenario : UserRec :=
  { primaryEmail := some "a@x.com"
    fullName := some "A B"
    id := some "1"
    suspended := false }

/-- Environment whose users.get returns `userScenario`. -/
def envScenario : Env := { env0 with usersGetR := Except.ok userScenario }

/-- A suspended and an active user, for the list-users filter instance. -/
def userSusp : UserRec := { primaryEmail := some "s@x.com", suspended := true }

/-- The active user of the list-users filter instance. -/
def userActive : UserRec := { primaryEmail := some "a@x.com" }

/-- Environment whose users.list returns one suspended and one active user. -/
def envListMix : Env :=
  { env0 with usersListR := Except.ok [userSusp, userActive] }

/-- A concrete unexpected Python exception. -/
def errOther : PyError := PyError.other "RuntimeError" "boom"

/-- Environment whose credential loading fails with `errOther`. -/
def envCredFail : Env := { env0 with credLoad := Except.error errOther }

/-- A concrete HTTP 404 failure for the delete-user get step. -/
def err404 : PyError := PyError.httpError 404 (some "userKey not found") "http 404"

/-- Environment whose users.get fails with `err404`. -/
def envGetFail : Env := { env0 with usersGetR := Except.error err404 }

/-- Environment whose users.delete fails with `err404` (users.get succeeds). -/
def envDelFail : Env := { env0 with usersDeleteR := Except.error err404 }

/-- A configuration with the impersonation identity unset. -/
def cfgNoAdmin : Config := { cfg0 with adminEmail := "" }

/-- A string whose first summand has non-empty data is non-empty. -/
theorem append_left_ne_empty (s t : String) (h : s.data ≠ []) : s ++ t ≠ "" := by
  intro hc
  have hd := congrArg String.data hc
  rw [String.data_append] at hd
  simp only [List.append_eq_nil] at hd
  exact h hd.1

/-- The data of an append is non-empty when the left summand's is. -/
theorem append_data_ne_nil (s t : String) (h : s.data ≠ []) :
    (s ++ t).data ≠ [] := by
  rw [String.data_append]
  simp [h]

/-- C1: for every configuration, environment and input with `confirm = false`,
`gw_delete_user` issues no Directory API call (neither the get nor the
delete) and returns exactly the fixed cancellation notice string. -/
theorem delete_user_unconfirmed_cancels (cfg : Config) (env : Env)
    (params : DeleteUserInput) (h : params.confirm = false) :
    gw_delete_user cfg env params = (deleteCancelMsg, []) := by
  simp [gw_delete_user, h]

/-- Witness for `delete_user_unconfirmed_cancels` at a concrete input. -/
theorem delete_user_unconfirmed_cancels_witness :
    gw_delete_user cfg0 env0 { user_key := "a@x.com", confirm := false } =
      (deleteCancelMsg, []) :=
  delete_user_unconfirmed_cancels cfg0 env0 { user_key := "a@x.com", confirm := false } rfl

/-- C2: with `confirm = true` and the client built, `gw_delete_user` issues
exactly the users.get call followed by exactly the users.delete call, in that
order (whatever the delete's own outcome); and when the get call fails the
delete call is never issued and the translated get failure is returned. -/
theorem delete_user_confirmed_get_then_delete (cfg : Config) (env : Env)
    (params : DeleteUserInput) (hc : params.confirm = true)
    (hs : get_directory_service cfg env = Except.ok ()) :
    (∀ user, env.usersGetR = Except.ok user →
      (gw_delete_user cfg env params).2 =
        [ApiCall.usersGet params.user_key, ApiCall.usersDelete params.user_key]) ∧
    (∀ e, env.usersGetR = Except.error e →
      gw_delete_user cfg env params =
        (handle_google_error cfg e, [ApiCall.usersGet params.user_key])) := by
  constructor
  · intro user hu
    cases hd : env.usersDeleteR <;> simp [gw_delete_user, hc, hs, hu, hd]
  · intro e he
    simp [gw_delete_user, hc, hs, he]

/-- Witness for `delete_user_confirmed_get_then_delete`: both conjuncts at
concrete inputs (a succeeding get and a failing get). -/
theorem delete_user_confirmed_get_then_delete_witness :
    (gw_delete_user cfg0 env0 { user_key := "a@x.com", confirm := true }).2 =
      [ApiCall.usersGet "a@x.com", ApiCall.usersDelete "a@x.com"] ∧
    gw_delete_user cfg0 envGetFail { user_key := "a@x.com", confirm := true } =
      (handle_google_error cfg0 err404, [ApiCall.usersGet "a@x.com"]) :=
  ⟨(delete_user_confirmed_get_then_delete cfg0 env0
      { user_key := "a@x.com", confirm := true } rfl rfl).1 {} rfl,
   (delete_user_confirmed_get_then_delete cfg0 envGetFail
      { user_key := "a@x.com", confirm := true } rfl rfl).2 err404 rfl⟩

/-- C3: with `show_suspended = false`, every record that survives the
client-side filter of `gw_list_users` has `suspended = false`, and the
handler's formatted output is built exclusively from that filtered list
(the "no users" message when it is empty, its rendering otherwise) — so no
suspended record reaches the output even when the remote list call returned
suspended records. -/
theorem list_users_hides_suspended (cfg : Config) (env : Env)
    (params : ListUsersInput) (users0 : List UserRec)
    (hs : get_directory_service cfg env = Except.ok ())
    (hl : env.usersListR = Except.ok users0)
    (hss : params.show_suspended = false) :
    (∀ u ∈ listUsersFiltered params.show_suspended users0, u.suspended = false) ∧
    (gw_list_users cfg env params).1 =
      (if listUsersFiltered false users0 = [] then noUsersMsg
       else renderUserList (listUsersFiltered false users0)) := by
  constructor
  · intro u hu
    rw [hss] at hu
    simp only [listUsersFiltered, Bool.not_false, ite_true, List.mem_filter] at hu
    simpa using hu.2
  · by_cases hE : listUsersFiltered false users0 = [] <;>
      simp [gw_list_users, hs, hl, hss, hE]

/-- Witness for `list_users_hides_suspended`: a remote response holding one
suspended and one active user. -/
theorem list_users_hides_suspended_witness :
    (∀ u ∈ listUsersFiltered false [userSusp, userActive], u.suspended = false) ∧
    (gw_list_users cfg0 envListMix { show_suspended := false }).1 =
      (if listUsersFiltered false [userSusp, userActive] = [] then noUsersMsg
       else renderUserList (listUsersFiltered false [userSusp, userActive])) :=
  list_users_hides_suspended cfg0 envListMix { show_suspended := false }
    [userSusp, userActive] rfl rfl rfl

/-- C4: `gw_manage_alias` with `action = add` or `action = remove` and
`alias_email` omitted returns the fixed validation warning and issues no
Directory API call. -/
theorem manage_alias_missing_email_warns (cfg : Config) (env : Env)
    (params : ManageAliasInput)
    (hs : get_directory_service cfg env = Except.ok ())
    (ha : params.action = AliasAction.add ∨ params.action = AliasAction.remove)
    (he : params.alias_email = none) :
    gw_manage_alias cfg env params = (aliasWarnMsg, []) := by
  rcases ha with h | h <;> simp [gw_manage_alias, hs, h, he, truthyStr]

/-- Witness for `manage_alias_missing_email_warns` at a concrete add input. -/
theorem manage_alias_missing_email_warns_witness :
    gw_manage_alias cfg0 env0
        { user_key := "a@x.com", action := AliasAction.add } =
      (aliasWarnMsg, []) :=
  manage_alias_missing_email_warns cfg0 env0
    { user_key := "a@x.com", action := AliasAction.add } rfl (Or.inl rfl) rfl

/-- C5: the error translator renders HTTP 403 with the domain-wide-delegation
hint, HTTP 429 with the retry-later hint, and any status outside
400/403/404/409/429 as the generic message that embeds `HTTP` followed by
that status code. -/
theorem handle_google_error_status_map (cfg : Config) (status : Nat)
    (parsedMsg : Option String) (strRep : String)
    (hs : status ∉ ([400, 403, 404, 409, 429] : List Nat)) :
    handle_google_error cfg (PyError.httpError 403 parsedMsg strRep) =
      "Permessi insufficienti: " ++ parsedMsg.getD strRep ++
        ". Verifica la delega domain-wide del Service Account." ∧
    handle_google_error cfg (PyError.httpError 429 parsedMsg strRep) =
      "Rate limit superato. Riprova tra qualche secondo." ∧
    handle_google_error cfg (PyError.httpError status parsedMsg strRep) =
      "Errore API Google (HTTP " ++ toString status ++ "): " ++
        parsedMsg.getD strRep := by
  simp only [List.mem_cons, List.not_mem_nil, or_false, not_or] at hs
  obtain ⟨h400, h403, h404, h409, h429⟩ := hs
  refine ⟨rfl, rfl, ?_⟩
  simp [handle_google_error, translateHttp, h400, h403, h404, h409, h429]

/-- Witness for `handle_google_error_status_map` at status 500. -/
theorem handle_google_error_status_map_witness :
    handle_google_error cfg0 (PyError.httpError 403 (some "m") "raw") =
      "Permessi insufficienti: " ++ (some "m").getD "raw" ++
        ". Verifica la delega domain-wide del Service Account." ∧
    handle_google_error cfg0 (PyError.httpError 429 (some "m") "raw") =
      "Rate limit superato. Riprova tra qualche secondo." ∧
    handle_google_error cfg0 (PyError.httpError 500 (some "m") "raw") =
      "Errore API Google (HTTP " ++ toString 500 ++ "): " ++ (some "m").getD "raw" :=
  handle_google_error_status_map cfg0 500 (some "m") "raw" (by decide)

/-- C6: the generated temporary password has exactly the requested length and
draws every character from ASCII letters, digits and `!@#$%&*`; the default
length is 16; and `gw_create_user` without an explicit password sends a
password generated this way (default length) in its insert call. -/
theorem generate_temp_password_spec (pick : Nat → Fin passwordChars.length)
    (n : Nat) (cfg : Config) (env : Env) (params : CreateUserInput)
    (hs : get_directory_service cfg env = Except.ok ())
    (hp : params.password = none) :
    (generate_temp_password pick n).length = n ∧
    (∀ c ∈ (generate_temp_password pick n).data, c ∈ passwordChars) ∧
    (generate_temp_password pick).length = 16 ∧
    (gw_create_user cfg env params).2 =
      [ApiCall.usersInsert params.primary_email params.first_name
        params.last_name (generate_temp_password env.randPick 16)
        params.change_password_at_next_login params.org_unit_path
        (truthyStr params.recovery_email) (truthyStr params.recovery_phone)] := by
  refine ⟨?_, ?_, ?_, ?_⟩
  · simp [generate_temp_password, String.length]
  · intro c hc
    simp only [generate_temp_password, List.mem_map, List.mem_range] at hc
    obtain ⟨i, _, rfl⟩ := hc
    simp
  · simp [generate_temp_password, String.length]
  · cases hi : env.usersInsertR <;>
      simp [gw_create_user, hs, hi, createUserPassword, hp, truthyStr]

/-- Witness for `generate_temp_password_spec` with the constant random oracle
and a concrete create-user input without a password. -/
theorem generate_temp_password_spec_witness :
    (generate_temp_password pick0 16).length = 16 ∧
    (∀ c ∈ (generate_temp_password pick0 16).data, c ∈ passwordChars) ∧
    (generate_temp_password pick0).length = 16 ∧
    (gw_create_user cfg0 env0
        { primary_email := "a@x.com", first_name := "A", last_name := "B" }).2 =
      [ApiCall.usersInsert "a@x.com" "A" "B"
        (generate_temp_password env0.randPick 16) true "/"
        (truthyStr none) (truthyStr none)] :=
  generate_temp_password_spec pick0 16 cfg0 env0
    { primary_email := "a@x.com", first_name := "A", last_name := "B" } rfl rfl

/-- C7: `gw_get_user` with `user_key = "a@x.com"` against a provider whose
get call returns the scenario record yields a block containing
`📧 **a@x.com**`, `Stato: 🟢 Attivo` and `ID: 1`. -/
theorem get_user_scenario_lines :
    strHasSub (gw_get_user cfg0 envScenario { user_key := "a@x.com" }).1
        "📧 **a@x.com**" = true ∧
    strHasSub (gw_get_user cfg0 envScenario { user_key := "a@x.com" }).1
        "Stato: 🟢 Attivo" = true ∧
    strHasSub (gw_get_user cfg0 envScenario { user_key := "a@x.com" }).1
        "ID: 1" = true := by
  refine ⟨?_, ?_, ?_⟩ <;> rfl

/-- C8: on a successful create with `change_password_at_next_login = false`
the confirmation text has an empty slot where the "must change password"
warning would sit, while the same input with the flag set to true carries
`createWarnLine` in that slot. -/
theorem create_user_no_force_change_omits_warning (cfg : Config) (env : Env)
    (params : CreateUserInput) (created : UserRec)
    (hs : get_directory_service cfg env = Except.ok ())
    (hi : env.usersInsertR = Except.ok created)
    (hf : params.change_password_at_next_login = false) :
    (gw_create_user cfg env params).1 =
      "✅ Utente creato con successo!\n\n" ++ format_user created ++
        "\n\n🔑 **Password temporanea**: `" ++ createUserPassword env params ++
        "`\n" ++ "\n\nComunica le credenziali al cliente in modo sicuro." ∧
    (gw_create_user cfg env
        { params with change_password_at_next_login := true }).1 =
      "✅ Utente creato con successo!\n\n" ++ format_user created ++
        "\n\n🔑 **Password temporanea**: `" ++
        createUserPassword env { params with change_password_at_next_login := true } ++
        "`\n" ++ createWarnLine ++
        "\n\nComunica le credenziali al cliente in modo sicuro." := by
  constructor
  · simp [gw_create_user, hs, hi, hf]
  · simp [gw_create_user, hs, hi]

/-- Witness for `create_user_no_force_change_omits_warning` at a concrete
input with the flag off. -/
theorem create_user_no_force_change_omits_warning_witness :
    (gw_create_user cfg0 env0
        { primary_email := "a@x.com", first_name := "A", last_name := "B",
          change_password_at_next_login := false }).1 =
      "✅ Utente creato con successo!\n\n" ++ format_user {} ++
        "\n\n🔑 **Password temporanea**: `" ++
        createUserPassword env0
          { primary_email := "a@x.com", first_name := "A", last_name := "B",
            change_password_at_next_login := false } ++
        "`\n" ++ "\n\nComunica le credenziali al cliente in modo sicuro." :=
  (create_user_no_force_change_omits_warning cfg0 env0
    { primary_email := "a@x.com", first_name := "A", last_name := "B",
      change_password_at_next_login := false } {} rfl rfl rfl).1

/-- C9: every tool handler converts every exception it meets into the error
translator's string and returns it (empty call trace when the client could
not even be built), and the translator itself yields a non-empty string for
every exception, so a tool invocation always ends in a string result. -/
theorem tools_always_return_translated_errors (cfg : Config) (env : Env)
    (e : PyError) (a : String) (pLU : ListUsersInput) (pGU : GetUserInput)
    (pCU : CreateUserInput) (pDU : DeleteUserInput) (pSU : SuspendUserInput)
    (pRP : ResetPasswordInput) (pMA : ManageAliasInput) (pLG : ListGroupsInput)
    (pGM : ManageGroupMemberInput) (pMO : MoveUserOrgInput) :
    (handle_google_error cfg e ≠ "") ∧
    (get_directory_service cfg env = Except.error e →
      gw_list_users cfg env pLU = (handle_google_error cfg e, []) ∧
      gw_get_user cfg env pGU = (handle_google_error cfg e, []) ∧
      gw_create_user cfg env pCU = (handle_google_error cfg e, []) ∧
      (pDU.confirm = true →
        gw_delete_user cfg env pDU = (handle_google_error cfg e, [])) ∧
      gw_suspend_user cfg env pSU = (handle_google_error cfg e, []) ∧
      gw_reset_password cfg env pRP = (handle_google_error cfg e, []) ∧
      gw_manage_alias cfg env pMA = (handle_google_error cfg e, []) ∧
      gw_list_groups cfg env pLG = (handle_google_error cfg e, []) ∧
      gw_manage_group_member cfg env pGM = (handle_google_error cfg e, []) ∧
      gw_list_org_units cfg env = (handle_google_error cfg e, []) ∧
      gw_move_user_org cfg env pMO = (handle_google_error cfg e, [])) ∧
    (get_directory_service cfg env = Except.ok () →
      (env.usersListR = Except.error e →
        (gw_list_users cfg env pLU).1 = handle_google_error cfg e) ∧
      (env.usersGetR = Except.error e →
        (gw_get_user cfg env pGU).1 = handle_google_error cfg e) ∧
      (env.usersInsertR = Except.error e →
        (gw_create_user cfg env pCU).1 = handle_google_error cfg e) ∧
      (pDU.confirm = true → env.usersGetR = Except.error e →
        (gw_delete_user cfg env pDU).1 = handle_google_error cfg e) ∧
      (pDU.confirm = true → ∀ user, env.usersGetR = Except.ok user →
        env.usersDeleteR = Except.error e →
        (gw_delete_user cfg env pDU).1 = handle_google_error cfg e) ∧
      (env.usersUpdateR = Except.error e →
        (gw_suspend_user cfg env pSU).1 = handle_google_error cfg e ∧
        (gw_reset_password cfg env pRP).1 = handle_google_error cfg e ∧
        (gw_move_user_org cfg env pMO).1 = handle_google_error cfg e) ∧
      (pMA.action = AliasAction.list → env.aliasesListR = Except.error e →
        (gw_manage_alias cfg env pMA).1 = handle_google_error cfg e) ∧
      (pMA.action = AliasAction.add → truthyStr pMA.alias_email = some a →
        env.aliasesInsertR = Except.error e →
        (gw_manage_alias cfg env pMA).1 = handle_google_error cfg e) ∧
      (pMA.action = AliasAction.remove → truthyStr pMA.alias_email = some a →
        env.aliasesDeleteR = Except.error e →
        (gw_manage_alias cfg env pMA).1 = handle_google_error cfg e) ∧
      (env.groupsListR = Except.error e →
        (gw_list_groups cfg env pLG).1 = handle_google_error cfg e) ∧
      (pGM.action = GroupMemberAction.list → env.membersListR = Except.error e →
        (gw_manage_group_member cfg env pGM).1 = handle_google_error cfg e) ∧
      (pGM.action = GroupMemberAction.add → truthyStr pGM.member_email = some a →
        env.membersInsertR = Except.error e →
        (gw_manage_group_member cfg env pGM).1 = handle_google_error cfg e) ∧
      (pGM.action = GroupMemberAction.remove → truthyStr pGM.member_email = some a →
        env.membersDeleteR = Except.error e →
        (gw_manage_group_member cfg env pGM).1 = handle_google_error cfg e) ∧
      (env.orgunitsListR = Except.error e →
        (gw_list_org_units cfg env).1 = handle_google_error cfg e)) := by
  refine ⟨?_, ?_, ?_⟩
  · cases e with
    | httpError status parsedMsg strRep =>
      simp only [handle_google_error, translateHttp]
      split
      · exact append_left_ne_empty _ _ (by decide)
      · split
        · exact append_left_ne_empty _ _ (append_data_ne_nil _ _ (by decide))
        · split
          · exact append_left_ne_empty _ _ (by decide)
          · split
            · exact append_left_ne_empty _ _ (append_data_ne_nil _ _ (by decide))
            · split
              · decide
              · exact append_left_ne_empty _ _
                  (append_data_ne_nil _ _ (append_data_ne_nil _ _ (by decide)))
    | fileNotFound strRep =>
      exact append_left_ne_empty _ _ (append_data_ne_nil _ _ (by decide))
    | valueError msg =>
      exact append_left_ne_empty _ _ (by decide)
    | other typeName msg =>
      exact append_left_ne_empty _ _
        (append_data_ne_nil _ _ (append_data_ne_nil _ _ (by decide)))
  · intro hcred
    refine ⟨?_, ?_, ?_, fun hconf => ?_, ?_, ?_, ?_, ?_, ?_, ?_, ?_⟩
    · simp [gw_list_users, hcred]
    · simp [gw_get_user, hcred]
    · simp [gw_create_user, hcred]
    · simp [gw_delete_user, hconf, hcred]
    · simp [gw_suspend_user, hcred]
    · simp [gw_reset_password, hcred]
    · simp [gw_manage_alias, hcred]
    · simp [gw_list_groups, hcred]
    · simp [gw_manage_group_member, hcred]
    · simp [gw_list_org_units, hcred]
    · simp [gw_move_user_org, hcred]
  · intro hok
    refine ⟨?_, ?_, ?_, ?_, ?_, ?_, ?_, ?_, ?_, ?_, ?_, ?_, ?_, ?_⟩
    · intro h; simp [gw_list_users, hok, h]
    · intro h; simp [gw_get_user, hok, h]
    · intro h; simp [gw_create_user, hok, h]
    · intro hconf h; simp [gw_delete_user, hok, hconf, h]
    · intro hconf user hg h; simp [gw_delete_user, hok, hconf, hg, h]
    · intro h
      exact ⟨by simp [gw_suspend_user, hok, h],
        by simp [gw_reset_password, hok, h],
        by simp [gw_move_user_org, hok, h]⟩
    · intro hact h; simp [gw_manage_alias, hok, hact, h]
    · intro hact hal h; simp [gw_manage_alias, hok, hact, hal, h]
    · intro hact hal h; simp [gw_manage_alias, hok, hact, hal, h]
    · intro h; simp [gw_list_groups, hok, h]
    · intro hact h; simp [gw_manage_group_member, hok, hact, h]
    · intro hact hm h; simp [gw_manage_group_member, hok, hact, hm, h]
    · intro hact hm h; simp [gw_manage_group_member, hok, hact, hm, h]
    · intro h; simp [gw_list_org_units, hok, h]

/-- Witness for `tools_always_return_translated_errors`: a failing credential
load turns sample tools into the translated error, the translated string is
non-empty, and the delete handler's failing get and failing delete both end
in the translated error. -/
theorem tools_always_return_translated_errors_witness :
    (handle_google_error cfg0 errOther ≠ "") ∧
    gw_list_users cfg0 envCredFail {} = (handle_google_error cfg0 errOther, []) ∧
    gw_manage_alias cfg0 envCredFail
        { user_key := "a@x.com", action := AliasAction.list } =
      (handle_google_error cfg0 errOther, []) ∧
    (gw_get_user cfg0 envGetFail { user_key := "a@x.com" }).1 =
      handle_google_error cfg0 err404 ∧
    (gw_delete_user cfg0 envGetFail { user_key := "a@x.com", confirm := true }).1 =
      handle_google_error cfg0 err404 ∧
    (gw_delete_user cfg0 envDelFail { user_key := "a@x.com", confirm := true }).1 =
      handle_google_error cfg0 err404 :=
  have h1 := tools_always_return_translated_errors cfg0 envCredFail errOther
    "al@x.com" {} { user_key := "a@x.com" }
    { primary_email := "a@x.com", first_name := "A", last_name := "B" }
    { user_key := "a@x.com", confirm := true } { user_key := "a@x.com", suspend := true }
    { user_key := "a@x.com" } { user_key := "a@x.com", action := AliasAction.list }
    {} { group_key := "g@x.com", action := GroupMemberAction.list }
    { user_key := "a@x.com", org_unit_path := "/IT" }
  have h2 := tools_always_return_translated_errors cfg0 envGetFail err404
    "al@x.com" {} { user_key := "a@x.com" }
    { primary_email := "a@x.com", first_name := "A", last_name := "B" }
    { user_key := "a@x.com", confirm := true } { user_key := "a@x.com", suspend := true }
    { user_key := "a@x.com" } { user_key := "a@x.com", action := AliasAction.list }
    {} { group_key := "g@x.com", action := GroupMemberAction.list }
    { user_key := "a@x.com", org_unit_path := "/IT" }
  have h3 := tools_always_return_translated_errors cfg0 envDelFail err404
    "al@x.com" {} { user_key := "a@x.com" }
    { primary_email := "a@x.com", first_name := "A", last_name := "B" }
    { user_key := "a@x.com", confirm := true } { user_key := "a@x.com", suspend := true }
    { user_key := "a@x.com" } { user_key := "a@x.com", action := AliasAction.list }
    {} { group_key := "g@x.com", action := GroupMemberAction.list }
    { user_key := "a@x.com", org_unit_path := "/IT" }
  ⟨h1.1, (h1.2.1 rfl).1, (h1.2.1 rfl).2.2.2.2.2.2.1, (h2.2.2 rfl).2.1 rfl,
    (h2.2.2 rfl).2.2.2.1 rfl rfl, (h3.2.2 rfl).2.2.2.2.1 rfl {} rfl rfl⟩

/-- C10: the `confirm = false` check of `gw_delete_user` runs before any
credential acquisition, so the cancellation notice comes back unchanged even
when the impersonation identity is unset or the credential file fails to
load; whereas the `confirm = true` path first builds the client, and a
failure there ends the handler with the translated error and no Directory
API call. -/
theorem delete_user_cancel_precedes_credentials (cfg : Config) (env : Env)
    (params : DeleteUserInput) (e : PyError) :
    (params.confirm = false → env.credLoad = Except.error e →
      gw_delete_user cfg env params = (deleteCancelMsg, [])) ∧
    (params.confirm = false → cfg.adminEmail = "" →
      gw_delete_user cfg env params = (deleteCancelMsg, [])) ∧
    (params.confirm = true → get_directory_service cfg env = Except.error e →
      gw_delete_user cfg env params = (handle_google_error cfg e, [])) := by
  refine ⟨?_, ?_, ?_⟩
  · intro hc _
    simp [gw_delete_user, hc]
  · intro hc _
    simp [gw_delete_user, hc]
  · intro hc hcred
    simp [gw_delete_user, hc, hcred]

/-- Witness for `delete_user_cancel_precedes_credentials`: a broken
credential file and an unset admin identity, with both confirm values. -/
theorem delete_user_cancel_precedes_credentials_witness :
    gw_delete_user cfg0 envCredFail { user_key := "a@x.com", confirm := false } =
      (deleteCancelMsg, []) ∧
    gw_delete_user cfgNoAdmin env0 { user_key := "a@x.com", confirm := false } =
      (deleteCancelMsg, []) ∧
    gw_delete_user cfg0 envCredFail { user_key := "a@x.com", confirm := true } =
      (handle_google_error cfg0 errOther, []) :=
  ⟨(delete_user_cancel_precedes_credentials cfg0 envCredFail
      { user_key := "a@x.com", confirm := false } errOther).1 rfl rfl,
   (delete_user_cancel_precedes_credentials cfgNoAdmin env0
      { user_key := "a@x.com", confirm := false } errOther).2.1 rfl rfl,
   (delete_user_cancel_precedes_credentials cfg0 envCredFail
      { user_key := "a@x.com", confirm := true } errOther).2.2 rfl rfl⟩
